import Mathlib

/-!
Shallow embedding of `src/rd_ui/app/scripts/controllers/query_source.js`
(the `QuerySourceCtrl` AngularJS controller of the redash query editor).

The controller keeps a draft of a query: `$scope.query.query` is the live
text, the controller-local variable `queryText` is the last-persisted
baseline, `$scope.isDirty` the dirty flag, `$scope.query.version` the last
version the server returned.  The operations embedded here are the
`$watch('query.query')` listener (an edit), the `saveQuery` override, the
`forkQuery` override, `duplicateQuery`, and `deleteVisualization`'s success
callback.  Asynchronous collaborator calls are modelled by passing the
promise's eventual outcome (or `none` when the collaborator returned a
falsy value instead of a promise) as an explicit argument; the callbacks
then run against whatever draft state is live at resolution time, exactly
as in the single-threaded event-loop model of the source.
-/

namespace QuerySource

/-- The saved-query value a successful save/fork resolves with
(`savedQuery` in the source): its text `query`, its `version`, and the
string `getSourceLink()` returns. -/
structure SavedQuery where
  query : String
  version : Nat
  sourceLink : String
deriving DecidableEq, Repr

/-- Embedding of `savedQuery.getSourceLink()`. -/
def SavedQuery.getSourceLink (q : SavedQuery) : String := q.sourceLink

/-- The `$scope.query` object: its `id` (absent for a never-persisted
query), its text `query`, and its `version`. -/
structure QueryModel where
  id : Option Nat
  query : String
  version : Nat
deriving DecidableEq, Repr

/-- Embedding of `!$scope.query.id` captured at session open
(`var isNewQuery = !$scope.query.id`). -/
def isNewQuery (q : QueryModel) : Bool := q.id.isNone

/-- The draft-relevant scope state: `$scope.query`, the controller-local
baseline `queryText`, and `$scope.isDirty`. -/
structure DraftState where
  query : QueryModel
  queryText : String
  isDirty : Bool
deriving DecidableEq, Repr

/-- Embedding of a text edit: the editor sets `$scope.query.query` and the
`$watch('query.query')` listener recomputes
`$scope.isDirty = (newQueryText !== queryText)`. -/
def edit (t : String) (s : DraftState) : DraftState :=
  { s with query := { s.query with query := t },
           isDirty := t != s.queryText }

/-- Outcome of a collaborator promise: fulfilled with a `SavedQuery`, or
rejected with an error carrying an HTTP status (`error.status`). -/
inductive PromiseOutcome where
  | fulfilled (savedQuery : SavedQuery)
  | rejected (status : Nat)
deriving DecidableEq, Repr

/-- A growl notification, with the `ttl` option the source passes
(`{ttl: -1}` on the conflict path). -/
structure Growl where
  message : String
  ttl : Int
deriving DecidableEq, Repr

/-- Modelled from the spec: the growl collaborator is not part of the
supplied source; per the spec's warning contract, a notification whose
time-to-live is negative does not auto-expire and persists until the user
dismisses it. -/
def Growl.nonExpiring (g : Growl) : Prop := g.ttl < 0

/-- Modelled from the spec: the navigation collaborator (`$location`) is
not part of the supplied source.  Per the spec, `$location.path(p)`
navigates while preserving the existing view fragment/anchor and pushing
history, while `$location.url(u).replace()` navigates with the fragment
cleared and the history entry replaced. -/
structure Navigation where
  target : String
  keepsFragment : Bool
  replacesHistory : Bool
deriving DecidableEq, Repr

/-- Modelled from the spec: the effect of `$location.path(p)` — keep the
fragment, push history. -/
def locationPath (p : String) : Navigation := ⟨p, true, false⟩

/-- Modelled from the spec: the effect of `$location.url(u).replace()` —
clear the fragment, replace history. -/
def locationUrlReplace (u : String) : Navigation := ⟨u, false, true⟩

/-- The conflict warning text of the 409 branch. -/
def conflictMessage : String :=
  "It seems like the query has been modified by another user. " ++
  "Please copy/backup your changes and reload this page."

/-- What one invocation of the overridden `$scope.saveQuery` produces once
its promise (if any) has settled: the resulting draft state, the
navigation performed by the success callback, the growl emitted by the
error callback, and the value the function returned to its caller
(`none` models `undefined`; the function returns `savePromise` itself, so
a rejected promise still rejects in the caller's hands). -/
structure SaveCallResult where
  state : DraftState
  nav : Option Navigation
  growl : Option Growl
  returned : Option PromiseOutcome
deriving DecidableEq, Repr

/-- Embedding of the overridden `$scope.saveQuery` (lines 54–79).
`savePromise` is the base collaborator's result: `none` when it was falsy
(the `if (!savePromise) return;` guard), otherwise the promise's eventual
outcome.  `isNew` is the `isNewQuery` value captured at session open, and
`s` the draft state live when the promise settles. -/
def saveQuery (isNew : Bool) (savePromise : Option PromiseOutcome)
    (s : DraftState) : SaveCallResult :=
  match savePromise with
  | none => ⟨s, none, none, none⟩
  | some (.fulfilled savedQuery) =>
      ⟨{ s with queryText := savedQuery.query,
                isDirty := s.query.query != savedQuery.query,
                query := { s.query with version := savedQuery.version } },
       if isNew then some (locationPath savedQuery.getSourceLink) else none,
       none,
       some (.fulfilled savedQuery)⟩
  | some (.rejected status) =>
      ⟨s, none,
       if status = 409 then some ⟨conflictMessage, -1⟩ else none,
       some (.rejected status)⟩

/-- The options object `duplicateQuery` passes to `$scope.forkQuery`. -/
structure ForkOptions where
  successMessage : String
  errorMessage : String
deriving DecidableEq, Repr

/-- What one invocation of `$scope.forkQuery` produces once its promise
(if any) has settled: the resulting draft state, the options forwarded to
the base collaborator, the navigation performed (the fork callback calls
no `$location` method, so this is always `none`), and the returned value
(`none` models `undefined`). -/
structure ForkCallResult where
  state : DraftState
  optionsSent : ForkOptions
  nav : Option Navigation
  returned : Option PromiseOutcome
deriving DecidableEq, Repr

/-- Embedding of the overridden `$scope.forkQuery` (lines 81–93): on a
fulfilled promise the callback sets only `queryText = savedQuery.query`;
nothing else on the scope is touched and no navigation happens. -/
def forkQuery (options : ForkOptions) (forkPromise : Option PromiseOutcome)
    (s : DraftState) : ForkCallResult :=
  match forkPromise with
  | none => ⟨s, options, none, none⟩
  | some (.fulfilled savedQuery) =>
      ⟨{ s with queryText := savedQuery.query }, options, none,
       some (.fulfilled savedQuery)⟩
  | some (.rejected status) =>
      ⟨s, options, none, some (.rejected status)⟩

/-- The fixed messages `duplicateQuery` passes to `forkQuery`. -/
def duplicateOptions : ForkOptions :=
  ⟨"Query forked", "Query could not be forked"⟩

/-- Embedding of `$scope.duplicateQuery` (lines 95–104): it calls
`$scope.forkQuery(duplicateOptions)` and chains `.then(redirect)` directly
on the return value.  When `forkQuery` returned `undefined` the `.then`
access raises a `TypeError`, modelled by `none`; otherwise the result is
the fork's state and options together with the redirect navigation
(`$location.url(savedQuery.getSourceLink()).replace()`) performed on
fulfillment. -/
def duplicateQuery (forkPromise : Option PromiseOutcome) (s : DraftState) :
    Option (DraftState × ForkOptions × Option Navigation) :=
  let call := forkQuery duplicateOptions forkPromise s
  match call.returned with
  | none => none
  | some (.fulfilled savedQuery) =>
      some (call.state, call.optionsSent,
            some (locationUrlReplace savedQuery.getSourceLink))
  | some (.rejected _) =>
      some (call.state, call.optionsSent, none)

/-- The spec's dirty invariant: `isDirty ⇔ currentText ≠ persistedText`,
i.e. `$scope.isDirty` agrees with `$scope.query.query !== queryText`. -/
def dirtyInvariant (s : DraftState) : Prop :=
  s.isDirty = true ↔ s.query.query ≠ s.queryText

/-- A visualization, as far as the delete handler needs it. -/
structure Visualization where
  id : Nat
  name : String
deriving DecidableEq, Repr

/-- The value of `$scope.selectedTab`: either the default `'table'` tab or
a visualization's id. -/
inductive Tab where
  | table
  | vis (id : Nat)
deriving DecidableEq, Repr

/-- Embedding of `$location.hash($scope.selectedTab)`'s argument. -/
def tabHash : Tab → String
  | .table => "table"
  | .vis i => toString i

/-- The scope state the `deleteVisualization` success callback touches:
the selected tab, the visualization list, and the location fragment. -/
structure VizScope where
  selectedTab : Tab
  visualizations : List Visualization
  locationHash : Option String
deriving DecidableEq, Repr

/-- Embedding of the success callback of `$scope.deleteVisualization`
(lines 111–119): if the deleted visualization was the selected tab, reset
the tab to `DEFAULT_TAB` (`'table'`) and update the location hash, then
filter the local collection by `vis.id !== v.id`. -/
def deleteVisualizationSuccess (vis : Visualization) (s : VizScope) :
    VizScope :=
  let s1 :=
    if s.selectedTab = Tab.vis vis.id then
      { s with selectedTab := Tab.table,
               locationHash := some (tabHash Tab.table) }
    else s
  { s1 with visualizations :=
      s1.visualizations.filter (fun v => vis.id != v.id) }

/-- C1: after a save resolves successfully with a `SavedQuery` carrying
text `r.query` and version `r.version`, the baseline `queryText` equals
`r.query`, `query.version` equals `r.version`, and `isDirty` holds iff
the live `query.query` at callback time differs from `r.query`; in
particular, when an `edit t2` lands between the save invocation and its
resolution, the resulting `isDirty` reflects `t2`. -/
theorem save_success_reconciles (isNew : Bool) (s : DraftState)
    (r : SavedQuery) :
    ((saveQuery isNew (some (.fulfilled r)) s).state.queryText = r.query ∧
     (saveQuery isNew (some (.fulfilled r)) s).state.query.version =
       r.version ∧
     ((saveQuery isNew (some (.fulfilled r)) s).state.isDirty = true ↔
       s.query.query ≠ r.query)) ∧
    ∀ t2 : String,
      ((saveQuery isNew (some (.fulfilled r)) (edit t2 s)).state.isDirty
        = true ↔ t2 ≠ r.query) := by
  refine ⟨⟨rfl, rfl, ?_⟩, fun t2 => ?_⟩
  · simp [saveQuery, bne_iff_ne]
  · simp [saveQuery, edit, bne_iff_ne]

/-- C2 (counterexample): the dirty invariant does NOT survive every
successful fork.  Starting from a state satisfying the invariant, a fork
that resolves with text different from both the current text and the old
baseline leaves `isDirty = false` while `query.query ≠ queryText`: the
fork callback updates `queryText` without recomputing `isDirty`. -/
theorem fork_breaks_dirty_invariant :
    dirtyInvariant ⟨⟨some 1, "SELECT 1", 1⟩, "SELECT 1", false⟩ ∧
    ¬ dirtyInvariant (forkQuery duplicateOptions
        (some (.fulfilled ⟨"SELECT 2", 2, "/queries/2/source"⟩))
        ⟨⟨some 1, "SELECT 1", 1⟩, "SELECT 1", false⟩).state := by
  constructor
  · simp [dirtyInvariant]
  · simp [dirtyInvariant, forkQuery]

/-- C2 (amended): the invariant `isDirty ⇔ query.query ≠ queryText` holds
after every edit and after every successful save; after a successful fork
it holds exactly when the pre-fork `isDirty` already agrees with the
comparison of the live text against the fork result's text (e.g. when the
fork result echoes the current text and the draft was clean). -/
theorem dirty_invariant_amended :
    (∀ (t : String) (s : DraftState), dirtyInvariant (edit t s)) ∧
    (∀ (isNew : Bool) (r : SavedQuery) (s : DraftState),
       dirtyInvariant (saveQuery isNew (some (.fulfilled r)) s).state) ∧
    (∀ (opts : ForkOptions) (r : SavedQuery) (s : DraftState),
       dirtyInvariant (forkQuery opts (some (.fulfilled r)) s).state ↔
       (s.query.query != r.query) = s.isDirty) := by
  refine ⟨fun t s => ?_, fun isNew r s => ?_, fun opts r s => ?_⟩
  · simp [dirtyInvariant, edit, bne_iff_ne]
  · simp [dirtyInvariant, saveQuery, bne_iff_ne]
  · simp only [dirtyInvariant, forkQuery]
    cases hd : s.isDirty <;>
      simp [hd, bne_iff_ne, bne_eq_false_iff_eq]

/-- C2 (witness for the amended theorem): a concrete fork whose result
text matches the live text keeps the invariant. -/
theorem dirty_invariant_amended_witness :
    dirtyInvariant (forkQuery duplicateOptions
      (some (.fulfilled ⟨"SELECT 1", 2, "/queries/2/source"⟩))
      ⟨⟨some 1, "SELECT 1", 1⟩, "SELECT 1", false⟩).state :=
  (dirty_invariant_amended.2.2 duplicateOptions
    ⟨"SELECT 1", 2, "/queries/2/source"⟩
    ⟨⟨some 1, "SELECT 1", 1⟩, "SELECT 1", false⟩).mpr (by decide)

/-- C3: a successful fork leaves `query.query` (the current text),
`query.version`, `query.id` and `isDirty` unchanged; the only draft field
it writes is the baseline `queryText`, set to the fork result's text, and
it performs no navigation. -/
theorem fork_frame (opts : ForkOptions) (r : SavedQuery) (s : DraftState) :
    (forkQuery opts (some (.fulfilled r)) s).state.query.query =
      s.query.query ∧
    (forkQuery opts (some (.fulfilled r)) s).state.query.version =
      s.query.version ∧
    (forkQuery opts (some (.fulfilled r)) s).state.query.id = s.query.id ∧
    (forkQuery opts (some (.fulfilled r)) s).state.isDirty = s.isDirty ∧
    (forkQuery opts (some (.fulfilled r)) s).state.queryText = r.query ∧
    (forkQuery opts (some (.fulfilled r)) s).nav = none :=
  ⟨rfl, rfl, rfl, rfl, rfl, rfl⟩

/-- C4: a save rejected with status 409 mutates no draft state and emits
the conflict warning with `ttl = -1`, a non-expiring notification. -/
theorem save_conflict_409 (isNew : Bool) (s : DraftState) :
    (saveQuery isNew (some (.rejected 409)) s).state = s ∧
    (saveQuery isNew (some (.rejected 409)) s).nav = none ∧
    (saveQuery isNew (some (.rejected 409)) s).growl =
      some ⟨conflictMessage, -1⟩ ∧
    Growl.nonExpiring ⟨conflictMessage, -1⟩ := by
  refine ⟨rfl, rfl, rfl, ?_⟩
  simp [Growl.nonExpiring]

/-- C5: when the save collaborator returns no promise, `saveQuery`
returns the state untouched, performs no navigation, emits no growl, and
returns `undefined` (`none`) to the caller. -/
theorem save_no_promise (isNew : Bool) (s : DraftState) :
    saveQuery isNew none s = ⟨s, none, none, none⟩ := rfl

/-- C6: when the session's query had no persisted id at open, a
successful save navigates via `$location.path` to the saved query's
source link — a navigation that preserves the existing fragment — and
when the query had an id, no navigation happens. -/
theorem save_redirect_when_new (q0 : QueryModel) (s : DraftState)
    (r : SavedQuery) :
    (saveQuery (isNewQuery q0) (some (.fulfilled r)) s).nav =
      (if q0.id.isNone then some (locationPath r.getSourceLink)
       else none) ∧
    (locationPath r.getSourceLink).keepsFragment = true :=
  ⟨rfl, rfl⟩

/-- C7: `duplicateQuery` equals forking with the fixed messages
`'Query forked'` / `'Query could not be forked'` followed, on success, by
a navigation to the fork result's source link that clears the fragment
and replaces the history entry. -/
theorem duplicate_composition (s : DraftState) (r : SavedQuery) :
    duplicateQuery (some (.fulfilled r)) s =
      some ((forkQuery duplicateOptions (some (.fulfilled r)) s).state,
            duplicateOptions,
            some (locationUrlReplace r.getSourceLink)) ∧
    duplicateOptions.successMessage = "Query forked" ∧
    duplicateOptions.errorMessage = "Query could not be forked" ∧
    (locationUrlReplace r.getSourceLink).keepsFragment = false ∧
    (locationUrlReplace r.getSourceLink).replacesHistory = true :=
  ⟨rfl, rfl, rfl, rfl, rfl⟩

/-- C8: a save rejected with any status other than 409 leaves the draft
state untouched, emits no growl, performs no navigation, and the value
returned to the caller still rejects with that error. -/
theorem save_generic_error (isNew : Bool) (s : DraftState) (status : Nat)
    (h : status ≠ 409) :
    saveQuery isNew (some (.rejected status)) s =
      ⟨s, none, none, some (.rejected status)⟩ := by
  simp [saveQuery, h]

/-- C8 (witness): a concrete status-500 rejection. -/
theorem save_generic_error_witness :
    saveQuery true (some (.rejected 500)) ⟨⟨none, "A", 1⟩, "A", false⟩ =
      ⟨⟨⟨none, "A", 1⟩, "A", false⟩, none, none,
       some (.rejected 500)⟩ :=
  save_generic_error true ⟨⟨none, "A", 1⟩, "A", false⟩ 500 (by decide)

/-- C9: after a successful visualization deletion, an entry remains in
the local collection iff it was there before and its id differs from the
deleted one; and the selected tab and location hash are reset to the
default `'table'` exactly when the deleted id was the selected tab,
otherwise they are unchanged. -/
theorem delete_visualization_success (vis : Visualization)
    (s : VizScope) :
    (∀ w : Visualization,
       w ∈ (deleteVisualizationSuccess vis s).visualizations ↔
         w ∈ s.visualizations ∧ vis.id ≠ w.id) ∧
    (deleteVisualizationSuccess vis s).selectedTab =
      (if s.selectedTab = Tab.vis vis.id then Tab.table
       else s.selectedTab) ∧
    (deleteVisualizationSuccess vis s).locationHash =
      (if s.selectedTab = Tab.vis vis.id then some "table"
       else s.locationHash) := by
  by_cases hc : s.selectedTab = Tab.vis vis.id <;>
    simp [deleteVisualizationSuccess, hc, tabHash, List.mem_filter,
      bne_iff_ne]

/-- C10: when the fork collaborator returns no promise, `forkQuery`
itself is a guarded no-op returning `undefined`, but `duplicateQuery`
chains `.then` on that `undefined` and crashes (modelled as `none`),
while `saveQuery` under the same circumstance stays a no-op. -/
theorem duplicate_crashes_without_promise (s : DraftState) :
    duplicateQuery none s = none ∧
    forkQuery duplicateOptions none s =
      ⟨s, duplicateOptions, none, none⟩ ∧
    saveQuery true none s = ⟨s, none, none, none⟩ :=
  ⟨rfl, rfl, rfl⟩

end QuerySource
